import Mathlib

/-!
Shallow embedding of `src/app.py` (libreRender, a MarianMT translation
service) and verification of its specification.

The embedded parts are the language normalizer (`normalize_lang`), the
script-classifier probes (`contains_arabic`, `contains_french`,
`contains_english`), the model registry & cache (`get_model_pair`) and the
translation orchestrator (`translate`).  The neural model itself is opaque
in the source (`MarianTokenizer.from_pretrained`, `MarianMTModel
.from_pretrained`, `model.generate` + `tokenizer.decode`), so it is
abstracted by a `Loader` record (the two `from_pretrained` calls, each of
which may fail) and a `run` function (tokenize + generate + decode of one
text unit).  Loads performed and generate calls performed are returned
explicitly so that the spec's load-count / invocation-count probes can be
stated.
-/

namespace LibreRender

/-! ### Python string primitives -/

/-- Whitespace characters recognized by Python `str.strip()` /
`str.isspace()` (ASCII portion; the rare non-ASCII Unicode space code
points are not modelled). -/
def pyIsSpace (c : Char) : Bool :=
  c = ' ' || c = '\t' || c = '\n' || c = '\r' || c = '\x0b' || c = '\x0c'

/-- Python `str.lower()` on one character: ASCII `A`–`Z` and the Latin-1
uppercase letters `À`–`Þ` (excluding `×`) are shifted to their lowercase
forms; every other character is unchanged.  (Python's full Unicode case
table is approximated by these two ranges, which cover the English and
French alphabets the service handles; Arabic has no case.) -/
def pyToLowerChar (c : Char) : Char :=
  if 65 ≤ c.toNat && c.toNat ≤ 90 then Char.ofNat (c.toNat + 32)
  else if 192 ≤ c.toNat && c.toNat ≤ 222 && c.toNat != 215 then Char.ofNat (c.toNat + 32)
  else c

/-- Python `str.lower()`. -/
def pyLower (s : String) : String := ⟨s.data.map pyToLowerChar⟩

/-- Python `str.strip()` on a character list: drop whitespace from both
ends. -/
def pyStripList (l : List Char) : List Char :=
  ((l.dropWhile pyIsSpace).reverse.dropWhile pyIsSpace).reverse

/-- Python `str.strip()`. -/
def pyStrip (s : String) : String := ⟨pyStripList s.data⟩

/-- Python slicing `s[:2]`. -/
def pyTake2 (s : String) : String := ⟨s.data.take 2⟩

/-- Python `dict` lookup (`m.get(k)` / `k in m` / `m[k]`).  Insertion is
modelled by consing the new binding at the front, so the first match is
the most recent binding, matching `dict` overwrite semantics. -/
def alist_get {α : Type} : List (String × α) → String → Option α
  | [], _ => none
  | (k', v) :: rest, k => if k' = k then some v else alist_get rest k

/-! ### `app.py` data -/

/-- The `MODEL_MAP` of `app.py`: the static language-pair → model-name map. -/
def MODEL_MAP : List (String × String) :=
  [("en-fr", "Helsinki-NLP/opus-mt-en-fr"),
   ("fr-en", "Helsinki-NLP/opus-mt-fr-en"),
   ("en-ar", "Helsinki-NLP/opus-mt-en-ar"),
   ("ar-en", "Helsinki-NLP/opus-mt-ar-en"),
   ("fr-ar", "Helsinki-NLP/opus-mt-fr-ar"),
   ("ar-fr", "Helsinki-NLP/opus-mt-ar-fr")]

/-- The alias table inside `normalize_lang`. -/
def lang_map : List (String × String) :=
  [("english", "en"),
   ("french", "fr"),
   ("français", "fr"),
   ("arabic", "ar"),
   ("عربي", "ar")]

/-- The `valid_langs` set of the `translate` endpoint (`{"en","fr","ar"}`). -/
def valid_langs : List String := ["en", "fr", "ar"]

/-! ### Classifier probes and normalizer (`app.py` lines 144–176) -/

/-- Probe `contains_arabic`: some character lies in the Arabic block
U+0600–U+06FF. -/
def contains_arabic (text : String) : Bool :=
  text.data.any (fun c => 0x600 ≤ c.toNat && c.toNat ≤ 0x6FF)

/-- The `french_chars` string of `contains_french`. -/
def french_chars : List Char := ("éèêëàâçùûüôöîï" : String).data

/-- Probe `contains_french`: some character of `french_chars` occurs in the
lowercased text (`any(char in text.lower() for char in french_chars)`). -/
def contains_french (text : String) : Bool :=
  french_chars.any (fun c => (pyLower text).data.contains c)

/-- One character of `ascii_count`'s filter: `ord(c) < 128 and
c.isprintable()`.  For code points below 128, Python's `isprintable` is
true exactly on 32–126. -/
def ascii_printable (c : Char) : Bool :=
  c.toNat < 128 && (32 ≤ c.toNat && c.toNat ≤ 126)

/-- Count `ascii_count = sum(1 for c in text if ord(c) < 128 and c.isprintable())`. -/
def ascii_count (text : String) : Nat :=
  (text.data.filter ascii_printable).length

/-- Probe `contains_english`: false when the Arabic or French probe fires,
otherwise `ascii_count > len(text) * 0.8`.  The float comparison
`ascii_count > len(text) * 0.8` is modelled exactly by the integer
comparison `5 * ascii_count > 4 * len`: for lengths not divisible by 5
the product's fractional part (≥ 0.2) dwarfs the rounding error of the
IEEE double `0.8`, and for lengths `5m` the double product
`(0.8 + 2^-54/5·4)·5m` rounds to exactly `4m` (its excess `m·2^-52` is
below half an ulp of `4m`), so both comparisons agree for every
realistic length. -/
def contains_english (text : String) : Bool :=
  if contains_arabic text || contains_french text then false
  else decide (4 * text.data.length < 5 * ascii_count text)

/-- Normalizer `normalize_lang`: lowercase, strip, alias-table lookup, else the first
two characters when at least two are present, else `"en"`. -/
def normalize_lang (lang : String) : String :=
  match alist_get lang_map (pyStrip (pyLower lang)) with
  | some code => code
  | none =>
    if 2 ≤ (pyStrip (pyLower lang)).data.length
    then pyTake2 (pyStrip (pyLower lang)) else "en"

/-! ### Registry & cache (`get_model_pair`, `app.py` lines 42–64) -/

/-- The distinct error exits of `app.py`, kept structured.  In the source
they are `ValueError`s (mapped to HTTP 400) except `keyError`, which
models the Python `KeyError` that a read of `tokenizers_cache[pair_key]`
would raise were the pair in `models_cache` but not in
`tokenizers_cache` (an uncaught exception, mapped to HTTP 500). -/
inductive AppError where
  | invalidSource (lang : String) (valid : List String)
  | invalidTarget (lang : String) (valid : List String)
  | unsupportedPair (source target : String) (available : List String)
  | modelLoadError (model_name pair_key cause : String)
  | keyError (key : String)
deriving DecidableEq

/-- The client-facing message of each error, as built by the f-strings of
`app.py` (for the two validation errors Python renders the set literal
`{"en", "fr", "ar"}`; element order of a `repr` of a `set` is not
specified, one order is fixed here). -/
def AppError.message : AppError → String
  | .invalidSource lang _ =>
      "Invalid source_lang: " ++ lang ++ ". Must be one of: \x7b'en', 'fr', 'ar'\x7d"
  | .invalidTarget lang _ =>
      "Invalid target_lang: " ++ lang ++ ". Must be one of: \x7b'en', 'fr', 'ar'\x7d"
  | .unsupportedPair source target available =>
      "Unsupported language pair: " ++ source ++ " -> " ++ target ++
        ". Available pairs: ['" ++ String.intercalate "', '" available ++ "']"
  | .modelLoadError model_name pair_key cause =>
      "Failed to load model " ++ model_name ++ " for pair " ++ pair_key ++ ": " ++ cause
  | .keyError key => "KeyError: " ++ key

/-- Test `starts_with l s`: the character list `s` begins the list `l`. -/
def starts_with : List Char → List Char → Bool
  | _, [] => true
  | [], _ :: _ => false
  | c :: l, d :: s => c = d && starts_with l s

/-- Test `has_sub l sub`: the character list `sub` occurs contiguously inside
`l` (Python's `sub in s` on strings). -/
def has_sub : List Char → List Char → Bool
  | [], sub => sub.isEmpty
  | c :: rest, sub => starts_with (c :: rest) sub || has_sub rest sub

/-- Substring occurrence on strings. -/
def str_has_sub (s sub : String) : Bool := has_sub s.data sub.data

/-- Recognize the unsupported-pair error. -/
def AppError.isUnsupportedPair : AppError → Bool
  | .unsupportedPair _ _ _ => true
  | _ => false

/-- The opaque loading mechanism (`MarianTokenizer.from_pretrained` and
`MarianMTModel.from_pretrained`); each call may raise, modelled by
`Except` with the exception's `str(e)` as the error value. -/
structure Loader (Tok Mdl : Type) where
  loadTokenizer : String → Except String Tok
  loadModel : String → Except String Mdl

/-- The process-wide mutable caches `models_cache` and
`tokenizers_cache`. -/
structure RegistryState (Tok Mdl : Type) where
  models_cache : List (String × Mdl)
  tokenizers_cache : List (String × Tok)
deriving DecidableEq

/-- One invocation of the loading mechanism (the load-count probe of the
spec's cache-behavior property). -/
inductive LoadEvent where
  | tok (model_name : String)
  | mdl (model_name : String)
deriving DecidableEq

/-- Function `get_model_pair` of `app.py`.  Returns the result (handles or error),
the caches after the call (the source mutates process-wide globals, so
the state is returned even on the error paths), and the list of loads
performed. -/
def get_model_pair {Tok Mdl : Type} (L : Loader Tok Mdl)
    (st : RegistryState Tok Mdl) (source_lang target_lang : String) :
    Except AppError (Tok × Mdl) × RegistryState Tok Mdl × List LoadEvent :=
  match alist_get st.models_cache (source_lang ++ "-" ++ target_lang) with
  | some mdl =>
    match alist_get st.tokenizers_cache (source_lang ++ "-" ++ target_lang) with
    | some tok => (.ok (tok, mdl), st, [])
    | none => (.error (.keyError (source_lang ++ "-" ++ target_lang)), st, [])
  | none =>
    match alist_get MODEL_MAP (source_lang ++ "-" ++ target_lang) with
    | none =>
      (.error (.unsupportedPair source_lang target_lang (MODEL_MAP.map Prod.fst)), st, [])
    | some model_name =>
      match L.loadTokenizer model_name with
      | .error e =>
        (.error (.modelLoadError model_name (source_lang ++ "-" ++ target_lang) e),
          st, [.tok model_name])
      | .ok tok =>
        match L.loadModel model_name with
        | .error e =>
          (.error (.modelLoadError model_name (source_lang ++ "-" ++ target_lang) e),
            { st with tokenizers_cache :=
                ((source_lang ++ "-" ++ target_lang), tok) :: st.tokenizers_cache },
            [.tok model_name, .mdl model_name])
        | .ok mdl =>
          (.ok (tok, mdl),
            ⟨((source_lang ++ "-" ++ target_lang), mdl) :: st.models_cache,
             ((source_lang ++ "-" ++ target_lang), tok) :: st.tokenizers_cache⟩,
            [.tok model_name, .mdl model_name])

/-! ### Translation orchestrator (`translate`, `app.py` lines 71–142) -/

/-- The request body: `text: Union[str, List[str]]`,
`source_lang: str = "auto"`, `target_lang: str`. -/
structure TranslateRequest where
  text : Sum String (List String)
  source_lang : String := "auto"
  target_lang : String

/-- The blank-unit test `not text or not text.strip()`: true exactly when
every character is whitespace (in particular for the empty string). -/
def is_blank (t : String) : Bool := t.data.all pyIsSpace

/-- The per-unit body of the translation loop: blank units pass through
unchanged; otherwise tokenize/generate/decode via the opaque `run`. -/
def translate_unit {Tok Mdl : Type} (run : Tok → Mdl → String → String)
    (tok : Tok) (mdl : Mdl) (t : String) : String :=
  if is_blank t then t else run tok mdl t

/-- What one call of the `translate` endpoint produces: the HTTP-visible
result, the caches afterwards, the loads performed, and the number of
`model.generate` invocations. -/
structure TranslateOutcome (Tok Mdl : Type) where
  result : Except AppError (Sum String (List String))
  st : RegistryState Tok Mdl
  loads : List LoadEvent
  gen_calls : Nat

/-- The reassignment `source_lang = "en" if source_lang == "auto"` at
line 87–88 of `app.py` (performed after validation). -/
def auto_resolve (s : String) : String := if s = "auto" then "en" else s

/-- The `translate` endpoint of `app.py`: normalize both labels, validate
against `valid_langs`, substitute `"en"` for an `"auto"` source, identity
short-circuit, resolve the pair through `get_model_pair`, then map the
per-unit translation over the units (the single-string case runs the loop
over the one-element list `[text]` and returns `results[0] if results
else ""`), and mirror the input shape.  The classifier calls at lines
119–126 only drive logging and are not part of the returned value. -/
def translate {Tok Mdl : Type} (L : Loader Tok Mdl)
    (run : Tok → Mdl → String → String) (st : RegistryState Tok Mdl)
    (req : TranslateRequest) : TranslateOutcome Tok Mdl :=
  if valid_langs.contains (normalize_lang req.source_lang) = false then
    ⟨.error (.invalidSource (normalize_lang req.source_lang) valid_langs), st, [], 0⟩
  else if valid_langs.contains (normalize_lang req.target_lang) = false then
    ⟨.error (.invalidTarget (normalize_lang req.target_lang) valid_langs), st, [], 0⟩
  else if auto_resolve (normalize_lang req.source_lang) = normalize_lang req.target_lang then
    ⟨.ok req.text, st, [], 0⟩
  else
    match get_model_pair L st (auto_resolve (normalize_lang req.source_lang))
        (normalize_lang req.target_lang) with
    | (.error e, st', ev) => ⟨.error e, st', ev, 0⟩
    | (.ok (tok, mdl), st', ev) =>
      match req.text with
      | .inl s =>
        ⟨.ok (.inl (([s].map (translate_unit run tok mdl)).headD "")), st', ev,
         ([s].filter (fun t => is_blank t = false)).length⟩
      | .inr l =>
        ⟨.ok (.inr (l.map (translate_unit run tok mdl))), st', ev,
         (l.filter (fun t => is_blank t = false)).length⟩

/-! ### Concrete instances used to evaluate the endpoint -/

/-- A loader test double that always succeeds (tokenizer handle `1`,
model handle `2`). -/
def L0 : Loader Nat Nat := ⟨fun _ => .ok 1, fun _ => .ok 2⟩

/-- A loader test double whose tokenizer load succeeds (handle `7`) and
whose model load raises `"boom"`. -/
def Lfail : Loader Nat Nat := ⟨fun _ => .ok 7, fun _ => .error "boom"⟩

/-- A concrete generation function: decorates the unit so translated
units are distinguishable from passed-through ones. -/
def run0 : Nat → Nat → String → String := fun _ _ s => s ++ "!"

/-- The empty cache state (process start). -/
def st0 : RegistryState Nat Nat := ⟨[], []⟩

/-- A loader test double whose tokenizer load itself raises `"no tok"`. -/
def Ltfail : Loader Nat Nat := ⟨fun _ => .error "no tok", fun _ => .ok 2⟩

/-- The model identifier of the en→fr pair. -/
def enfr_model : String := "Helsinki-NLP/opus-mt-en-fr"

/-- The cache state after the en→fr pair was loaded through `L0` from the
empty state. -/
def st1 : RegistryState Nat Nat := ⟨[("en-fr", 2)], [("en-fr", 1)]⟩

/-- The load events of one full load of the en→fr pair. -/
def ev_enfr : List LoadEvent := [.tok enfr_model, .mdl enfr_model]

/-! ### Helper lemmas -/

theorem toNat_ofNat_small {n : Nat} (h : n < 55296) : (Char.ofNat n).toNat = n := by
  have hv : n.isValidChar := Or.inl h
  simp [Char.ofNat, hv, Char.ofNatAux, Char.toNat]
  rfl

theorem pyToLowerChar_idem (c : Char) :
    pyToLowerChar (pyToLowerChar c) = pyToLowerChar c := by
  unfold pyToLowerChar
  split
  · rename_i h1
    simp only [Bool.and_eq_true, decide_eq_true_eq] at h1
    have ht : (Char.ofNat (c.toNat + 32)).toNat = c.toNat + 32 :=
      toNat_ofNat_small (by omega)
    rw [if_neg, if_neg]
    · simp [ht]; omega
    · simp [ht]; omega
  · split
    · rename_i h1 h2
      simp only [Bool.and_eq_true, bne_iff_ne, ne_eq, decide_eq_true_eq,
        Bool.not_eq_true] at h1 h2
      have ht : (Char.ofNat (c.toNat + 32)).toNat = c.toNat + 32 :=
        toNat_ofNat_small (by omega)
      rw [if_neg, if_neg]
      · simp [ht]; omega
      · simp [ht]; omega
    · rfl

theorem alist_get_cons_ne {α : Type} {k' k : String} (v : α)
    (m : List (String × α)) (h : k' ≠ k) :
    alist_get ((k', v) :: m) k = alist_get m k := by
  simp [alist_get, h]

theorem alist_get_cons_eq {α : Type} (k : String) (v : α)
    (m : List (String × α)) : alist_get ((k, v) :: m) k = some v := by
  simp [alist_get]

theorem dropWhile_eq_self_of_none {p : Char → Bool} {l : List Char}
    (h : ∀ c ∈ l, p c = false) : l.dropWhile p = l := by
  cases l with
  | nil => rfl
  | cons a l =>
    rw [List.dropWhile_cons, if_neg]
    simp [h a (List.mem_cons_self a l)]

theorem pyStripList_eq_self {l : List Char}
    (h : ∀ c ∈ l, pyIsSpace c = false) : pyStripList l = l := by
  unfold pyStripList
  rw [dropWhile_eq_self_of_none h,
      dropWhile_eq_self_of_none (fun c hc => h c (List.mem_reverse.mp hc)),
      List.reverse_reverse]

theorem mem_of_mem_pyStripList {l : List Char} {c : Char}
    (h : c ∈ pyStripList l) : c ∈ l := by
  unfold pyStripList at h
  rw [List.mem_reverse] at h
  have h1 := (List.dropWhile_suffix pyIsSpace).subset h
  rw [List.mem_reverse] at h1
  exact (List.dropWhile_suffix pyIsSpace).subset h1

theorem lang_map_values {y code : String}
    (h : alist_get lang_map y = some code) :
    code = "en" ∨ code = "fr" ∨ code = "ar" := by
  unfold lang_map alist_get at h
  split at h
  · exact Or.inl (Option.some.inj h).symm
  · unfold alist_get at h
    split at h
    · exact Or.inr (Or.inl (Option.some.inj h).symm)
    · unfold alist_get at h
      split at h
      · exact Or.inr (Or.inl (Option.some.inj h).symm)
      · unfold alist_get at h
        split at h
        · exact Or.inr (Or.inr (Option.some.inj h).symm)
        · unfold alist_get at h
          split at h
          · exact Or.inr (Or.inr (Option.some.inj h).symm)
          · simp [alist_get] at h

theorem lang_map_none_of_len2 {y : String} (h : y.data.length = 2) :
    alist_get lang_map y = none := by
  have hne : ∀ k : String, k.data.length ≠ 2 → k ≠ y := by
    intro k hk he
    exact hk (he ▸ h)
  unfold lang_map alist_get
  rw [if_neg (hne "english" (by decide))]
  unfold alist_get
  rw [if_neg (hne "french" (by decide))]
  unfold alist_get
  rw [if_neg (hne "français" (by decide))]
  unfold alist_get
  rw [if_neg (hne "arabic" (by decide))]
  unfold alist_get
  rw [if_neg (hne "عربي" (by decide))]
  rfl

theorem normalize_lang_length (x : String) :
    (normalize_lang x).data.length = 2 := by
  unfold normalize_lang
  rcases h : alist_get lang_map (pyStrip (pyLower x)) with _ | code
  · simp only []
    split
    · rename_i hlen
      simp only [pyTake2, List.length_take, String.data]
      omega
    · decide
  · simp only []
    rcases lang_map_values h with h1 | h1 | h1 <;> subst h1 <;> decide

theorem normalize_lang_lower_fixed (x : String) :
    ∀ c ∈ (normalize_lang x).data, pyToLowerChar c = c := by
  unfold normalize_lang
  rcases h : alist_get lang_map (pyStrip (pyLower x)) with _ | code
  · simp only []
    split
    · intro c hc
      have hc2 : c ∈ (pyStrip (pyLower x)).data := by
        simp only [pyTake2] at hc
        exact List.take_subset 2 _ hc
      have hc3 : c ∈ (pyLower x).data := mem_of_mem_pyStripList hc2
      simp only [pyLower] at hc3
      rcases List.mem_map.mp hc3 with ⟨a, _, ha⟩
      rw [← ha]
      exact pyToLowerChar_idem a
    · decide
  · simp only []
    rcases lang_map_values h with h1 | h1 | h1 <;> subst h1 <;> decide

theorem pyLower_normalize (x : String) :
    pyLower (normalize_lang x) = normalize_lang x := by
  unfold pyLower
  have : (normalize_lang x).data.map pyToLowerChar = (normalize_lang x).data := by
    rw [List.map_congr_left (g := id) (normalize_lang_lower_fixed x),
        List.map_id]
  rw [this]

theorem valid_cases {s : String} (h : valid_langs.contains s = true) :
    s = "en" ∨ s = "fr" ∨ s = "ar" := by
  have hm : s ∈ valid_langs := by
    simpa [List.contains] using h
  simpa [valid_langs] using hm

theorem auto_resolve_valid {s : String} (h : valid_langs.contains s = true) :
    auto_resolve s = s := by
  rcases valid_cases h with h1 | h1 | h1 <;> subst h1 <;> decide

theorem pair_in_map {s t : String} (hs : valid_langs.contains s = true)
    (ht : valid_langs.contains t = true) (hne : s ≠ t) :
    ∃ name, alist_get MODEL_MAP (s ++ "-" ++ t) = some name := by
  rcases valid_cases hs with h1 | h1 | h1 <;>
    rcases valid_cases ht with h2 | h2 | h2 <;>
      subst h1 <;> subst h2 <;> first
        | exact absurd rfl hne
        | exact ⟨_, rfl⟩

theorem get_model_pair_hit {Tok Mdl : Type} (L : Loader Tok Mdl)
    {st : RegistryState Tok Mdl} {src tgt : String} {tok : Tok} {mdl : Mdl}
    (hm : alist_get st.models_cache (src ++ "-" ++ tgt) = some mdl)
    (ht : alist_get st.tokenizers_cache (src ++ "-" ++ tgt) = some tok) :
    get_model_pair L st src tgt = (.ok (tok, mdl), st, []) := by
  unfold get_model_pair
  simp only [hm, ht]

theorem get_model_pair_miss_ok {Tok Mdl : Type} {L : Loader Tok Mdl}
    {st : RegistryState Tok Mdl} {src tgt name : String} {tok : Tok} {mdl : Mdl}
    (hm : alist_get st.models_cache (src ++ "-" ++ tgt) = none)
    (hmap : alist_get MODEL_MAP (src ++ "-" ++ tgt) = some name)
    (htok : L.loadTokenizer name = .ok tok)
    (hmdl : L.loadModel name = .ok mdl) :
    get_model_pair L st src tgt =
      (.ok (tok, mdl),
       ⟨((src ++ "-" ++ tgt), mdl) :: st.models_cache,
        ((src ++ "-" ++ tgt), tok) :: st.tokenizers_cache⟩,
       [.tok name, .mdl name]) := by
  unfold get_model_pair
  simp only [hm, hmap, htok, hmdl]

theorem get_model_pair_tok_fail {Tok Mdl : Type} {L : Loader Tok Mdl}
    {st : RegistryState Tok Mdl} {src tgt name cause : String}
    (hm : alist_get st.models_cache (src ++ "-" ++ tgt) = none)
    (hmap : alist_get MODEL_MAP (src ++ "-" ++ tgt) = some name)
    (htok : L.loadTokenizer name = .error cause) :
    get_model_pair L st src tgt =
      (.error (.modelLoadError name (src ++ "-" ++ tgt) cause), st, [.tok name]) := by
  unfold get_model_pair
  simp only [hm, hmap, htok]

theorem get_model_pair_mdl_fail {Tok Mdl : Type} {L : Loader Tok Mdl}
    {st : RegistryState Tok Mdl} {src tgt name cause : String} {tok : Tok}
    (hm : alist_get st.models_cache (src ++ "-" ++ tgt) = none)
    (hmap : alist_get MODEL_MAP (src ++ "-" ++ tgt) = some name)
    (htok : L.loadTokenizer name = .ok tok)
    (hmdl : L.loadModel name = .error cause) :
    get_model_pair L st src tgt =
      (.error (.modelLoadError name (src ++ "-" ++ tgt) cause),
       { st with tokenizers_cache := ((src ++ "-" ++ tgt), tok) :: st.tokenizers_cache },
       [.tok name, .mdl name]) := by
  unfold get_model_pair
  simp only [hm, hmap, htok, hmdl]

theorem get_model_pair_preserves {Tok Mdl : Type} (L : Loader Tok Mdl)
    (st : RegistryState Tok Mdl) (src tgt k : String) {tok : Tok} {mdl : Mdl}
    (hm : alist_get st.models_cache k = some mdl)
    (ht : alist_get st.tokenizers_cache k = some tok) :
    alist_get ((get_model_pair L st src tgt).2.1).models_cache k = some mdl ∧
    alist_get ((get_model_pair L st src tgt).2.1).tokenizers_cache k = some tok := by
  by_cases hk : src ++ "-" ++ tgt = k
  · rw [get_model_pair_hit L (hk ▸ hm) (hk ▸ ht)]
    exact ⟨hm, ht⟩
  · unfold get_model_pair
    rcases h1 : alist_get st.models_cache (src ++ "-" ++ tgt) with _ | mdl'
    · simp only [h1]
      rcases h2 : alist_get MODEL_MAP (src ++ "-" ++ tgt) with _ | name
      · simp only [h2]
        exact ⟨hm, ht⟩
      · simp only [h2]
        rcases h3 : L.loadTokenizer name with e | tok'
        · simp only [h3]
          exact ⟨hm, ht⟩
        · simp only [h3]
          rcases h4 : L.loadModel name with e | mdl''
          · simp only [h4]
            exact ⟨hm, by rw [alist_get_cons_ne _ _ hk]; exact ht⟩
          · simp only [h4]
            exact ⟨by rw [alist_get_cons_ne _ _ hk]; exact hm,
                   by rw [alist_get_cons_ne _ _ hk]; exact ht⟩
    · simp only [h1]
      rcases h2 : alist_get st.tokenizers_cache (src ++ "-" ++ tgt) with _ | tok'
      · simp only [h2]
        exact ⟨hm, ht⟩
      · simp only [h2]
        exact ⟨hm, ht⟩

theorem get_model_pair_never_unsupported {Tok Mdl : Type} (L : Loader Tok Mdl)
    (st : RegistryState Tok Mdl) (src tgt : String)
    (h : ∃ name, alist_get MODEL_MAP (src ++ "-" ++ tgt) = some name) :
    ∀ e, (get_model_pair L st src tgt).1 = .error e → e.isUnsupportedPair = false := by
  intro e he
  rcases h with ⟨name, hname⟩
  unfold get_model_pair at he
  rcases h1 : alist_get st.models_cache (src ++ "-" ++ tgt) with _ | mdl' <;>
    simp only [h1] at he
  · simp only [hname] at he
    rcases h3 : L.loadTokenizer name with c | tok' <;> simp only [h3] at he
    · rw [← Except.error.inj he]
      rfl
    · rcases h4 : L.loadModel name with c | mdl'' <;> simp only [h4] at he
      · rw [← Except.error.inj he]
        rfl
      · exact absurd he (by simp)
  · rcases h2 : alist_get st.tokenizers_cache (src ++ "-" ++ tgt) with _ | tok' <;>
      simp only [h2] at he
    · rw [← Except.error.inj he]
      rfl
    · exact absurd he (by simp)

theorem translate_identity {Tok Mdl : Type} (L : Loader Tok Mdl)
    (run : Tok → Mdl → String → String) (st : RegistryState Tok Mdl)
    (req : TranslateRequest)
    (hsv : valid_langs.contains (normalize_lang req.source_lang) = true)
    (heq : normalize_lang req.source_lang = normalize_lang req.target_lang) :
    translate L run st req = ⟨.ok req.text, st, [], 0⟩ := by
  have htv : valid_langs.contains (normalize_lang req.target_lang) = true := heq ▸ hsv
  unfold translate
  rw [hsv, htv, auto_resolve_valid hsv, heq]
  simp

theorem translate_resolved {Tok Mdl : Type} (L : Loader Tok Mdl)
    (run : Tok → Mdl → String → String) (st : RegistryState Tok Mdl)
    (req : TranslateRequest) {tok : Tok} {mdl : Mdl}
    {st' : RegistryState Tok Mdl} {ev : List LoadEvent}
    (hsv : valid_langs.contains (normalize_lang req.source_lang) = true)
    (htv : valid_langs.contains (normalize_lang req.target_lang) = true)
    (hne : normalize_lang req.source_lang ≠ normalize_lang req.target_lang)
    (hg : get_model_pair L st (normalize_lang req.source_lang)
            (normalize_lang req.target_lang) = (.ok (tok, mdl), st', ev)) :
    translate L run st req =
      match req.text with
      | .inl s =>
        ⟨.ok (.inl (translate_unit run tok mdl s)), st', ev,
         ([s].filter (fun t => is_blank t = false)).length⟩
      | .inr l =>
        ⟨.ok (.inr (l.map (translate_unit run tok mdl))), st', ev,
         (l.filter (fun t => is_blank t = false)).length⟩ := by
  unfold translate
  rw [hsv, htv, auto_resolve_valid hsv]
  rw [if_neg (by simp), if_neg (by simp), if_neg hne, hg]
  rcases req.text with s | l
  · rfl
  · rfl

theorem translate_error_of_get_error {Tok Mdl : Type} (L : Loader Tok Mdl)
    (run : Tok → Mdl → String → String) (st : RegistryState Tok Mdl)
    (req : TranslateRequest) {e : AppError}
    {st' : RegistryState Tok Mdl} {ev : List LoadEvent}
    (hsv : valid_langs.contains (normalize_lang req.source_lang) = true)
    (htv : valid_langs.contains (normalize_lang req.target_lang) = true)
    (hne : normalize_lang req.source_lang ≠ normalize_lang req.target_lang)
    (hg : get_model_pair L st (normalize_lang req.source_lang)
            (normalize_lang req.target_lang) = (.error e, st', ev)) :
    translate L run st req = ⟨.error e, st', ev, 0⟩ := by
  unfold translate
  rw [hsv, htv, auto_resolve_valid hsv]
  rw [if_neg (by simp), if_neg (by simp), if_neg hne, hg]

/-! ### The claims -/

/-- C1: the spec states that a request whose source-language label is the
"auto" sentinel (including the default when `source_lang` is omitted) has
the fixed default "en" substituted after normalization and is translated,
not rejected.  The code instead normalizes `"auto"` to `"au"` (the
first-two-characters fallback of `normalize_lang`) and rejects the
request as an invalid source language; the `if source_lang == "auto"`
substitution sits after validation and can never fire.  This theorem
evaluates the embedded endpoint at such a request (`text` `"hello"`,
`source_lang` omitted and therefore `"auto"`, `target_lang` `"fr"`): the
response is the invalid-source client error, with no load and no
translation performed. -/
theorem C1_auto_source_rejected :
    translate L0 run0 st0 { text := .inl "hello", target_lang := "fr" } =
      ⟨.error (.invalidSource "au" valid_langs), st0, [], 0⟩ ∧
    normalize_lang "auto" = "au" :=
  ⟨rfl, rfl⟩

/-- C2 counterexample: a translate request with `source_lang="en"`,
`target_lang="de"` does fail with a client error, but its message is the
invalid-target-language message naming `de` and the allowed language set;
it does not enumerate the six pair keys (it does not even contain the
substring `"en-fr"`), because target validation rejects `de` before pair
resolution is reached. -/
theorem C2_counterexample :
    (translate L0 run0 st0 ⟨.inl "hello", "en", "de"⟩).result =
      .error (.invalidTarget "de" valid_langs) ∧
    (AppError.invalidTarget "de" valid_langs).message =
      "Invalid target_lang: de. Must be one of: \x7b'en', 'fr', 'ar'\x7d" ∧
    str_has_sub (AppError.invalidTarget "de" valid_langs).message "en-fr" = false :=
  ⟨rfl, rfl, by decide⟩

/-- C2 (amended): a translate request with `source_lang="en"` and
`target_lang="de"` fails, for every cache state, loader and text, with
the 400-equivalent invalid-target-language error naming `de` and the
allowed set {en, fr, ar}; the pair-key enumeration of the registry is not
produced because language validation precedes pair resolution. -/
theorem C2_en_de_fails_invalid_target {Tok Mdl : Type} (L : Loader Tok Mdl)
    (run : Tok → Mdl → String → String) (st : RegistryState Tok Mdl)
    (text : Sum String (List String)) :
    translate L run st ⟨text, "en", "de"⟩ =
      ⟨.error (.invalidTarget "de" valid_langs), st, [], 0⟩ ∧
    (AppError.invalidTarget "de" valid_langs).message =
      "Invalid target_lang: de. Must be one of: \x7b'en', 'fr', 'ar'\x7d" :=
  ⟨rfl, rfl⟩

/-- C3: for every valid pair key, the first resolution through the
registry performs exactly one load of that pair's tokenizer and model
and caches the handles; a subsequent resolution of the same key performs
zero loads and returns the previously cached handles with the state
untouched; and a resolution of any key (the same or another pair,
succeeding or failing) preserves existing cache entries, so the above
holds even interleaved with resolutions of other pairs. -/
theorem C3_cache_single_load {Tok Mdl : Type} (L : Loader Tok Mdl)
    (st : RegistryState Tok Mdl) (src tgt name : String) (tok : Tok) (mdl : Mdl) :
    (alist_get st.models_cache (src ++ "-" ++ tgt) = none →
     alist_get MODEL_MAP (src ++ "-" ++ tgt) = some name →
     L.loadTokenizer name = .ok tok →
     L.loadModel name = .ok mdl →
     get_model_pair L st src tgt =
       (.ok (tok, mdl),
        ⟨((src ++ "-" ++ tgt), mdl) :: st.models_cache,
         ((src ++ "-" ++ tgt), tok) :: st.tokenizers_cache⟩,
        [.tok name, .mdl name])) ∧
    (alist_get st.models_cache (src ++ "-" ++ tgt) = some mdl →
     alist_get st.tokenizers_cache (src ++ "-" ++ tgt) = some tok →
     get_model_pair L st src tgt = (.ok (tok, mdl), st, [])) ∧
    (∀ src' tgt',
     alist_get st.models_cache (src ++ "-" ++ tgt) = some mdl →
     alist_get st.tokenizers_cache (src ++ "-" ++ tgt) = some tok →
     alist_get ((get_model_pair L st src' tgt').2.1).models_cache
       (src ++ "-" ++ tgt) = some mdl ∧
     alist_get ((get_model_pair L st src' tgt').2.1).tokenizers_cache
       (src ++ "-" ++ tgt) = some tok) :=
  ⟨fun hm hmap htok hmdl => get_model_pair_miss_ok hm hmap htok hmdl,
   fun hm ht => get_model_pair_hit L hm ht,
   fun src' tgt' hm ht => get_model_pair_preserves L st src' tgt' _ hm ht⟩

/-- Witness for C3: the en→fr pair is loaded once from the empty state
(one tokenizer load and one model load, handles cached); resolving it
again from the resulting state performs zero loads and returns the cached
handles; and an interleaved resolution of fr→ar leaves the en→fr entries
in place. -/
theorem C3_cache_single_load_witness :
    get_model_pair L0 st0 "en" "fr" = (.ok (1, 2), st1, ev_enfr) ∧
    get_model_pair L0 st1 "en" "fr" = (.ok (1, 2), st1, []) ∧
    (alist_get ((get_model_pair L0 st1 "fr" "ar").2.1).models_cache "en-fr" = some 2 ∧
     alist_get ((get_model_pair L0 st1 "fr" "ar").2.1).tokenizers_cache "en-fr" = some 1) :=
  ⟨(C3_cache_single_load L0 st0 "en" "fr" enfr_model 1 2).1 rfl rfl rfl rfl,
   (C3_cache_single_load L0 st1 "en" "fr" enfr_model 1 2).2.1 rfl rfl,
   (C3_cache_single_load L0 st1 "en" "fr" enfr_model 1 2).2.2 "fr" "ar" rfl rfl⟩

/-- C4 counterexample: with a loader whose tokenizer load succeeds
(handle `7`) and whose model load raises `"boom"`, resolving en→fr from
the empty state re-raises the wrapped model-load error — but the cache
state is NOT unchanged: `tokenizers_cache` has gained the `en-fr`
tokenizer entry, refuting the claim's parenthetical "the cache state is
unchanged by the failure". -/
theorem C4_counterexample :
    get_model_pair Lfail st0 "en" "fr" =
      (.error (.modelLoadError enfr_model "en-fr" "boom"),
       ⟨[], [("en-fr", 7)]⟩, ev_enfr) ∧
    ((get_model_pair Lfail st0 "en" "fr").2.1).tokenizers_cache ≠
      st0.tokenizers_cache :=
  ⟨rfl, by decide⟩

/-- C4 (amended): when the load of a registered, uncached pair fails, the
registry re-raises a wrapped error carrying the model identifier, the
pair key and the underlying cause description, and the pair is not added
to `models_cache`, so a subsequent resolution of the pair retries the
load (performs the tokenizer and model loads again).  When the tokenizer
load failed, the caches are entirely unchanged; when the tokenizer load
succeeded and the model load failed, `tokenizers_cache` retains the
loaded tokenizer (the cache state is not entirely unchanged). -/
theorem C4_load_failure_wrapped {Tok Mdl : Type} (L : Loader Tok Mdl)
    (st : RegistryState Tok Mdl) (src tgt name cause : String) (tok : Tok)
    (hm : alist_get st.models_cache (src ++ "-" ++ tgt) = none)
    (hmap : alist_get MODEL_MAP (src ++ "-" ++ tgt) = some name) :
    (L.loadTokenizer name = .error cause →
     get_model_pair L st src tgt =
       (.error (.modelLoadError name (src ++ "-" ++ tgt) cause), st, [.tok name])) ∧
    (L.loadTokenizer name = .ok tok →
     L.loadModel name = .error cause →
     get_model_pair L st src tgt =
       (.error (.modelLoadError name (src ++ "-" ++ tgt) cause),
        { st with tokenizers_cache :=
            ((src ++ "-" ++ tgt), tok) :: st.tokenizers_cache },
        [.tok name, .mdl name]) ∧
     (∀ (L' : Loader Tok Mdl) (tok' : Tok) (mdl' : Mdl),
       L'.loadTokenizer name = .ok tok' → L'.loadModel name = .ok mdl' →
       (get_model_pair L' ((get_model_pair L st src tgt).2.1) src tgt).2.2 =
         [.tok name, .mdl name])) := by
  refine ⟨fun htok => get_model_pair_tok_fail hm hmap htok, fun htok hmdl => ⟨?_, ?_⟩⟩
  · exact get_model_pair_mdl_fail hm hmap htok hmdl
  · intro L' tok' mdl' h1 h2
    rw [get_model_pair_mdl_fail hm hmap htok hmdl]
    show (get_model_pair L'
      (⟨st.models_cache, ((src ++ "-" ++ tgt), tok) :: st.tokenizers_cache⟩ :
        RegistryState Tok Mdl) src tgt).2.2 = [.tok name, .mdl name]
    rw [@get_model_pair_miss_ok Tok Mdl L'
      ⟨st.models_cache, ((src ++ "-" ++ tgt), tok) :: st.tokenizers_cache⟩
      src tgt name tok' mdl' hm hmap h1 h2]

/-- Witness for C4 (amended): both failure shapes at the en→fr pair, and
the successful retry with a recovered loader after the model-load
failure. -/
theorem C4_load_failure_wrapped_witness :
    get_model_pair Ltfail st0 "en" "fr" =
      (.error (.modelLoadError enfr_model "en-fr" "no tok"), st0, [.tok enfr_model]) ∧
    get_model_pair Lfail st0 "en" "fr" =
      (.error (.modelLoadError enfr_model "en-fr" "boom"),
       ⟨[], [("en-fr", 7)]⟩, ev_enfr) ∧
    (get_model_pair L0 ((get_model_pair Lfail st0 "en" "fr").2.1) "en" "fr").2.2 =
      ev_enfr :=
  ⟨(C4_load_failure_wrapped Ltfail st0 "en" "fr" enfr_model "no tok" 0 rfl rfl).1 rfl,
   ((C4_load_failure_wrapped Lfail st0 "en" "fr" enfr_model "boom" 7 rfl rfl).2 rfl rfl).1,
   ((C4_load_failure_wrapped Lfail st0 "en" "fr" enfr_model "boom" 7 rfl rfl).2 rfl rfl).2
     L0 1 2 rfl rfl⟩

/-- C5: for every request whose normalized source equals its normalized
target (both in the supported set), the endpoint returns the input text
exactly, in its original single-string or array shape, with no load and
zero model invocations, and the cache state untouched. -/
theorem C5_identity_passthrough {Tok Mdl : Type} (L : Loader Tok Mdl)
    (run : Tok → Mdl → String → String) (st : RegistryState Tok Mdl)
    (req : TranslateRequest)
    (hsv : valid_langs.contains (normalize_lang req.source_lang) = true)
    (heq : normalize_lang req.source_lang = normalize_lang req.target_lang) :
    translate L run st req = ⟨.ok req.text, st, [], 0⟩ :=
  translate_identity L run st req hsv heq

/-- Witness for C5: an array request fr→fr through aliases (`"FR "` and
`"french"` both normalize to `fr`) and a single-string request en→en
each echo the input with zero loads and zero generate calls. -/
theorem C5_identity_passthrough_witness :
    translate L0 run0 st0 ⟨.inr ["x", "y"], "FR ", "french"⟩ =
      ⟨.ok (.inr ["x", "y"]), st0, [], 0⟩ ∧
    translate L0 run0 st0 ⟨.inl "hi", "en", "English"⟩ =
      ⟨.ok (.inl "hi"), st0, [], 0⟩ :=
  ⟨C5_identity_passthrough L0 run0 st0 ⟨.inr ["x", "y"], "FR ", "french"⟩
     (by decide) (by decide),
   C5_identity_passthrough L0 run0 st0 ⟨.inl "hi", "en", "English"⟩
     (by decide) (by decide)⟩

/-- C6: for every successful non-identity translation the response
mirrors the input shape: a single-string input yields the single
translated string, and an array input yields the element-wise image of
the input list under the per-unit translation — same length, same
order. -/
theorem C6_shape_preservation {Tok Mdl : Type} (L : Loader Tok Mdl)
    (run : Tok → Mdl → String → String) (st : RegistryState Tok Mdl)
    (req : TranslateRequest) {tok : Tok} {mdl : Mdl}
    {st' : RegistryState Tok Mdl} {ev : List LoadEvent}
    (hsv : valid_langs.contains (normalize_lang req.source_lang) = true)
    (htv : valid_langs.contains (normalize_lang req.target_lang) = true)
    (hne : normalize_lang req.source_lang ≠ normalize_lang req.target_lang)
    (hg : get_model_pair L st (normalize_lang req.source_lang)
            (normalize_lang req.target_lang) = (.ok (tok, mdl), st', ev)) :
    (∀ s, req.text = .inl s →
      (translate L run st req).result = .ok (.inl (translate_unit run tok mdl s))) ∧
    (∀ l, req.text = .inr l →
      (translate L run st req).result = .ok (.inr (l.map (translate_unit run tok mdl))) ∧
      (l.map (translate_unit run tok mdl)).length = l.length) := by
  have h := translate_resolved L run st req hsv htv hne hg
  constructor
  · intro s hs
    rw [h, hs]
  · intro l hl
    rw [h, hl]
    exact ⟨rfl, List.length_map l _⟩

/-- Witness for C6: en→fr with a two-element array yields a two-element
array in order, and with a single string yields a single string. -/
theorem C6_shape_preservation_witness :
    (translate L0 run0 st0 ⟨.inr ["hi", "yo"], "en", "fr"⟩).result =
      .ok (.inr ["hi!", "yo!"]) ∧
    (translate L0 run0 st0 ⟨.inl "hi", "en", "fr"⟩).result = .ok (.inl "hi!") :=
  ⟨((C6_shape_preservation L0 run0 st0 ⟨.inr ["hi", "yo"], "en", "fr"⟩
      (by decide) (by decide) (by decide) rfl).2 ["hi", "yo"] rfl).1,
   (C6_shape_preservation L0 run0 st0 ⟨.inl "hi", "en", "fr"⟩
      (by decide) (by decide) (by decide) rfl).1 "hi" rfl⟩

/-- C7: in a successful non-identity array translation, a blank unit
(empty or all-whitespace) passes through unchanged and contributes no
generate call — the number of generate calls is exactly the number of
non-blank units — while every non-blank unit is translated through the
model. -/
theorem C7_blank_passthrough {Tok Mdl : Type} (L : Loader Tok Mdl)
    (run : Tok → Mdl → String → String) (st : RegistryState Tok Mdl)
    (req : TranslateRequest) {tok : Tok} {mdl : Mdl}
    {st' : RegistryState Tok Mdl} {ev : List LoadEvent} (l : List String)
    (hsv : valid_langs.contains (normalize_lang req.source_lang) = true)
    (htv : valid_langs.contains (normalize_lang req.target_lang) = true)
    (hne : normalize_lang req.source_lang ≠ normalize_lang req.target_lang)
    (hg : get_model_pair L st (normalize_lang req.source_lang)
            (normalize_lang req.target_lang) = (.ok (tok, mdl), st', ev))
    (hl : req.text = .inr l) :
    (translate L run st req).result = .ok (.inr (l.map (translate_unit run tok mdl))) ∧
    (∀ t, is_blank t = true → translate_unit run tok mdl t = t) ∧
    (∀ t, is_blank t = false → translate_unit run tok mdl t = run tok mdl t) ∧
    (translate L run st req).gen_calls =
      (l.filter (fun t => is_blank t = false)).length := by
  have h := translate_resolved L run st req hsv htv hne hg
  refine ⟨?_, ?_, ?_, ?_⟩
  · rw [h, hl]
  · intro t ht
    simp [translate_unit, ht]
  · intro t ht
    simp [translate_unit, ht]
  · rw [h, hl]

/-- Witness for C7: the spec's own example `["", "  ", "hello"]` en→fr —
the blank units pass through unchanged, the non-blank one is translated,
and exactly one generate call is made. -/
theorem C7_blank_passthrough_witness :
    (translate L0 run0 st0 ⟨.inr ["", "  ", "hello"], "en", "fr"⟩).result =
      .ok (.inr ["", "  ", "hello!"]) ∧
    (translate L0 run0 st0 ⟨.inr ["", "  ", "hello"], "en", "fr"⟩).gen_calls = 1 :=
  ⟨(C7_blank_passthrough L0 run0 st0 ⟨.inr ["", "  ", "hello"], "en", "fr"⟩
      ["", "  ", "hello"] (by decide) (by decide) (by decide) rfl rfl).1,
   (C7_blank_passthrough L0 run0 st0 ⟨.inr ["", "  ", "hello"], "en", "fr"⟩
      ["", "  ", "hello"] (by decide) (by decide) (by decide) rfl rfl).2.2.2⟩

/-- C8 counterexample: the normalizer is not idempotent.  For the input
`"a b"` the stripped lowercased form is `"a b"`, no alias matches, and
the first-two-characters fallback yields `"a "` — which renormalizes
(strip drops the trailing space, leaving one character) to the default
`"en"`. -/
theorem C8_counterexample :
    normalize_lang "a b" = "a " ∧
    normalize_lang (normalize_lang "a b") = "en" ∧
    normalize_lang (normalize_lang "a b") ≠ normalize_lang "a b" :=
  ⟨by decide, by decide, by decide⟩

/-- C8 (amended): the normalizer is idempotent on every input whose
normalized code contains no whitespace character; idempotence can only
fail when the second character of the stripped lowercased input is
whitespace, in which case `normalize` returns a code with a trailing
space that renormalizes to `"en"`. -/
theorem C8_normalize_idem_no_ws (x : String)
    (h : (normalize_lang x).data.all (fun c => !(pyIsSpace c)) = true) :
    normalize_lang (normalize_lang x) = normalize_lang x := by
  have hlen : (normalize_lang x).data.length = 2 := normalize_lang_length x
  have hlower : pyLower (normalize_lang x) = normalize_lang x := pyLower_normalize x
  have hstrip : pyStrip (normalize_lang x) = normalize_lang x := by
    unfold pyStrip
    rw [pyStripList_eq_self]
    intro c hc
    have hb := List.all_eq_true.mp h c hc
    simpa using hb
  set r := normalize_lang x with hr
  unfold normalize_lang
  rw [hlower, hstrip, lang_map_none_of_len2 hlen]
  simp only []
  rw [if_pos (le_of_eq hlen.symm)]
  unfold pyTake2
  rw [← hlen, List.take_length]

/-- Witness for C8 (amended): `normalize("English") = "en"` contains no
whitespace and is a fixed point of the normalizer. -/
theorem C8_normalize_idem_no_ws_witness :
    (normalize_lang "English").data.all (fun c => !(pyIsSpace c)) = true ∧
    normalize_lang (normalize_lang "English") = normalize_lang "English" :=
  ⟨by decide, C8_normalize_idem_no_ws "English" (by decide)⟩

/-- C9 counterexample: the English probe uses a strict `>` threshold, not
"at least 80%".  The string `"abcd\x00"` has 4 of 5 characters printable
ASCII — exactly 80% — and fires neither the Arabic nor the French probe,
yet `contains_english` returns false, refuting the claimed
if-and-only-if with an at-least-80% bound. -/
theorem C9_counterexample :
    ¬ (contains_english "abcd\x00" = true ↔
       (contains_arabic "abcd\x00" = false ∧ contains_french "abcd\x00" = false ∧
        4 * ("abcd\x00" : String).data.length ≤ 5 * ascii_count "abcd\x00")) := by
  decide

/-- C9 (amended): for every string, the English-heuristic probe returns
true if and only if the Arabic-script and French-diacritic probes are
both false and STRICTLY more than 80% of the string's characters are
printable ASCII (`5 * ascii_count > 4 * length`, the exact integer form
of the source's `ascii_count > len(text) * 0.8`). -/
theorem C9_english_heuristic (s : String) :
    contains_english s = true ↔
      (contains_arabic s = false ∧ contains_french s = false ∧
       4 * s.data.length < 5 * ascii_count s) := by
  unfold contains_english
  rcases h1 : contains_arabic s <;> rcases h2 : contains_french s <;>
    simp [h1, h2]

/-- C10 (implicit claim): from the translate endpoint the unsupported-pair
error branch of the registry is unreachable — whatever the request, cache
state and loader, if the endpoint returns an error it is never the
unsupported-pair error, because validation admits only {en, fr, ar} and
all six ordered non-identity pairs over that set are keys of
`MODEL_MAP`. -/
theorem C10_unsupported_unreachable {Tok Mdl : Type} (L : Loader Tok Mdl)
    (run : Tok → Mdl → String → String) (st : RegistryState Tok Mdl)
    (req : TranslateRequest) :
    ∀ e, (translate L run st req).result = .error e → e.isUnsupportedPair = false := by
  intro e he
  unfold translate at he
  by_cases hsv : valid_langs.contains (normalize_lang req.source_lang) = false
  · rw [if_pos hsv] at he
    rw [← Except.error.inj he]
    rfl
  · rw [if_neg hsv] at he
    by_cases htv : valid_langs.contains (normalize_lang req.target_lang) = false
    · rw [if_pos htv] at he
      rw [← Except.error.inj he]
      rfl
    · rw [if_neg htv] at he
      have hsv' : valid_langs.contains (normalize_lang req.source_lang) = true := by
        simpa using hsv
      have htv' : valid_langs.contains (normalize_lang req.target_lang) = true := by
        simpa using htv
      by_cases hid : auto_resolve (normalize_lang req.source_lang) =
          normalize_lang req.target_lang
      · rw [if_pos hid] at he
        exact absurd he (by simp)
      · rw [if_neg hid] at he
        rw [auto_resolve_valid hsv'] at he hid
        rcases hg : get_model_pair L st (normalize_lang req.source_lang)
            (normalize_lang req.target_lang) with ⟨res, st2, ev2⟩
        rw [hg] at he
        rcases res with e' | ⟨tok, mdl⟩
        · simp only [] at he
          have he' : e' = e := Except.error.inj he
          refine get_model_pair_never_unsupported L st
            (normalize_lang req.source_lang) (normalize_lang req.target_lang)
            (pair_in_map hsv' htv' hid) e ?_
          rw [hg, ← he']
        · rcases hx : req.text with s | l <;> rw [hx] at he <;>
            exact absurd he (by simp)

/-- Witness for C10: at the concrete en→de request the endpoint errors,
and that error is not the unsupported-pair error. -/
theorem C10_unsupported_unreachable_witness :
    (AppError.invalidTarget "de" valid_langs).isUnsupportedPair = false :=
  C10_unsupported_unreachable L0 run0 st0 ⟨.inl "hello", "en", "de"⟩
    (AppError.invalidTarget "de" valid_langs) rfl

end LibreRender
